import Mathlib

/-!
Verification of the text-rewrite client and command handlers of `src/main.py`
(a Discord bot forwarding message text to a generative-language HTTP API).

The embedding models:
* JSON values and Python subscript semantics (`d[k]`, `l[0]`) with the
  exceptions they raise (`KeyError`, `IndexError`, `TypeError`);
* `call_gemini_api` as a function of the configured key, the input text and
  an oracle describing the network outcome, returning the list of HTTP
  requests issued together with either a returned value or an escaped
  exception;
* the owner check (`BOT_OWNER_ID` parsing, `is_bot_owner`);
* the two context-menu handlers as functions producing a list of effects.
-/

/-- JSON values, as produced by `response.json()` (Python `json` values:
`dict`s with string keys, `list`s, strings, numbers, booleans, null). -/
inductive JValue where
  | null
  | bool (b : Bool)
  | num (n : Int)
  | str (s : String)
  | arr (xs : List JValue)
  | obj (fields : List (String × JValue))

/-- Python exceptions that the response-extraction chain can raise. -/
inductive PyExn where
  | keyError
  | indexError
  | typeError
deriving DecidableEq, Repr

/-- Python subscript `v[k]` with a string key `k`: a `dict` looks the key up
(`KeyError` when absent); every other value raises `TypeError`. -/
def getItemStr : JValue → String → Except PyExn JValue
  | .obj fields, k =>
    match fields.lookup k with
    | some v => .ok v
    | none => .error .keyError
  | _, _ => .error .typeError

/-- Python subscript `v[0]`: a `list` yields its head (`IndexError` when
empty); a `str` yields its first character as a one-character string
(`IndexError` when empty); a `dict` raises `KeyError` (its JSON keys are
strings, never the integer `0`); other values raise `TypeError`. -/
def getItem0 : JValue → Except PyExn JValue
  | .arr [] => .error .indexError
  | .arr (x :: _) => .ok x
  | .str s =>
    match s.data with
    | [] => .error .indexError
    | c :: _ => .ok (.str (String.mk [c]))
  | .obj _ => .error .keyError
  | _ => .error .typeError

/-- The extraction `result["candidates"][0]["content"]["parts"][0]["text"]`
from `src/main.py` line 82, with Python's left-to-right evaluation and
first-raised-exception semantics. -/
def extractText (result : JValue) : Except PyExn JValue := do
  let c ← getItemStr result "candidates"
  let c0 ← getItem0 c
  let content ← getItemStr c0 "content"
  let parts ← getItemStr content "parts"
  let p0 ← getItem0 parts
  getItemStr p0 "text"

/-- `GEMINI_URL` from `src/main.py` line 32. -/
def GEMINI_URL : String :=
  "https://generativelanguage.googleapis.com/v1beta/models/gemini-2.0-flash:generateContent"

/-- The `system_prompt` constant of `call_gemini_api` (`src/main.py`
lines 47-66), byte for byte (apostrophes written `\x27`, backticks `\x60`). -/
def system_prompt : String :=
  "You are a technical support editor. Your task is to rewrite the user\x27s text into " ++
  "clear, concise, and grammatically correct standard language (keep the same language as input). " ++
  "Guidelines:\n" ++
  "1. Fix spelling, grammar, and punctuation.\n" ++
  "2. Remove slang, aggression, and excessive abbreviations.\n" ++
  "3. IDENTITY PRESERVATION (CRITICAL): Detect usernames, nicknames, exact error codes, or file paths. " ++
  "Keep them EXACTLY as they appear (case-sensitive) and WRAP THEM in single backticks (\x60). " ++
  "Example: \x27user_name\x27 -> \x60user_name\x60. This prevents Discord formatting issues.\n" ++
  "4. FORMATTING: Use Discord Markdown to improve readability where useful. " ++
  "Use **bold** for emphasis or key concepts. Use bullet points (*) if the input contains a list of items or steps.\n" ++
  "5. Output ONLY the rewritten text.\n\n" ++
  "Examples:\n" ++
  "Input: ahoj Pepik123 jak se mas\n" ++
  "Output: Ahoj \x60Pepik123\x60, jak se máš?\n" ++
  "Input: ban user xX_Destroyer_Xx pls because he griefed\n" ++
  "Output: Please ban user \x60xX_Destroyer_Xx\x60 because he **griefed**.\n" ++
  "Input: mam problem nejde mi mc, pise to error 500 a nevim heslo\n" ++
  "Output: Mám problém:\n* Nejde mi **Minecraft**\n* Píše to \x60error 500\x60\n* Nevím heslo"

/-- The request payload of `call_gemini_api` (`src/main.py` lines 68-72):
`{"contents": [{"parts": [{"text": f"{system_prompt}\n\nInput Text:\n{text_input}"}]}]}`. -/
def buildPayload (text_input : String) : JValue :=
  .obj [("contents", .arr [
    .obj [("parts", .arr [
      .obj [("text", .str (system_prompt ++ "\n\nInput Text:\n" ++ text_input))]])]])]

/-- An outgoing HTTP POST request: URL, headers, JSON body. -/
structure HttpRequest where
  url : String
  headers : List (String × String)
  body : JValue

/-- The request `session.post(GEMINI_URL, headers=headers, json=payload)`
issues for a given key and input (`src/main.py` lines 45, 68-75). -/
def buildRequest (key : String) (text_input : String) : HttpRequest :=
  { url := GEMINI_URL
    headers := [("Content-Type", "application/json"), ("x-goog-api-key", key)]
    body := buildPayload text_input }

/-- Oracle for what the network does on the one `session.post`:
either a transport-level fault (DNS failure, connection refused, timeout —
the client library raises), or a response with a numeric status, a body
text (what `response.text()` yields) and `some j` when the body parses as
JSON `j` (`none` when `response.json()` raises). -/
inductive NetOutcome where
  | fault
  | response (status : Nat) (bodyText : String) (bodyJson : Option JValue)

/-- Exceptions that can escape `call_gemini_api`: a transport-layer fault
raised by the HTTP client, a JSON-decode failure from `response.json()`,
or a `TypeError` from the extraction chain (only `KeyError` and
`IndexError` are caught at line 83). -/
inductive EscapedExn where
  | transport
  | jsonDecode
  | typeError
deriving DecidableEq, Repr

/-- Python truthiness of the configured key: `not GOOGLE_API_KEY` holds
when the variable is unset (`None`) or the empty string. -/
def keyMissing : Option String → Bool
  | none => true
  | some s => s = ""

/-- `call_gemini_api` (`src/main.py` lines 39-84), as a function of the
configured `GOOGLE_API_KEY`, the `text_input`, and the network outcome.
Returns the list of HTTP POST requests issued and either `.ok v` (the
Python function returned the value `v`) or `.error e` (the exception `e`
escaped the function). -/
def call_gemini_api (key : Option String) (text_input : String) (net : NetOutcome) :
    List HttpRequest × Except EscapedExn JValue :=
  match key with
  | none => ([], .ok (.str "[Error: API Key is missing. Check your .env file]"))
  | some k =>
    if k = "" then ([], .ok (.str "[Error: API Key is missing. Check your .env file]"))
    else
      let req := buildRequest k text_input
      match net with
      | .fault => ([req], .error .transport)
      | .response status bodyText bodyJson =>
        if status ≠ 200 then
          ([req], .ok (.str ("[API Error " ++ toString status ++ "]: " ++ bodyText)))
        else
          match bodyJson with
          | none => ([req], .error .jsonDecode)
          | some result =>
            match extractText result with
            | .ok v => ([req], .ok v)
            | .error .keyError =>
              ([req], .ok (.str "[Error: Unexpected response format from Google AI]"))
            | .error .indexError =>
              ([req], .ok (.str "[Error: Unexpected response format from Google AI]"))
            | .error .typeError => ([req], .error .typeError)

/-- Python `str.isdigit` restricted to ASCII strings, where it coincides
with: nonempty and every character a decimal digit `0`-`9` (and on such
strings `int(s)` succeeds and yields the decimal value). -/
def pyIsdigit (s : String) : Bool :=
  !s.isEmpty && s.data.all Char.isDigit

/-- The module-level conversion of the `BOT_OWNER_ID` environment variable
(`src/main.py` lines 23-29): `int(s)` when the variable is set, truthy
(nonempty) and `s.isdigit()`, otherwise `0`. -/
def parseOwnerId (env : Option String) : Nat :=
  match env with
  | none => 0
  | some s => if s ≠ "" && pyIsdigit s then (s.toNat?).getD 0 else 0

/-- `is_bot_owner` (`src/main.py` lines 35-36): the invoking user's ID
compared with the configured `BOT_OWNER_ID` for equality. -/
def is_bot_owner (userId ownerId : Nat) : Bool :=
  userId == ownerId

/-- Effects the two context-menu handlers perform, in order. `logAction`
carries the fields interpolated into the log line; `sendMessage` is
`interaction.response.send_message`; `deferResponse` is
`interaction.response.defer`; `callGemini` marks the `await
call_gemini_api(...)`; `followupValue` is `interaction.followup.send` of
the returned value; `followupEmbed` is the embed variant (description and
footer author name); `followupError` is the `except Exception` branch's
`"Something went wrong: ..."` followup. -/
inductive BotAction where
  | logAction (userName : String) (userId : Nat) (action : String)
      (targetContent : String) (messageId : Nat)
  | sendMessage (content : String) (ephemeral : Bool)
  | deferResponse (ephemeral : Bool)
  | callGemini (input : String)
  | followupValue (v : JValue) (ephemeral : Bool)
  | followupEmbed (description : JValue) (footerAuthor : String) (ephemeral : Bool)
  | followupError (e : EscapedExn) (ephemeral : Bool)

/-- The `De-idiotize` context-menu handler (`src/main.py` lines 126-153) as
the ordered list of effects it performs, parametrised by the target
message's content and by what `call_gemini_api` does (`gem`). -/
def deidiotize_context (userName : String) (userId : Nat) (content : String)
    (messageId : Nat) (gem : Except EscapedExn JValue) : List BotAction :=
  .logAction userName userId "De-idiotize" content messageId ::
  (if content = "" then
    [.sendMessage "❌ That message doesn't contain any text." true]
  else
    .deferResponse false :: .callGemini content ::
    (match gem with
     | .ok v => [.followupValue v false]
     | .error e => [.followupError e true]))

/-- The `De-idiotize_Ephemeral` context-menu handler (`src/main.py` lines
155-181) as the ordered list of effects it performs. -/
def deidiotize_context_ephemeral (userName : String) (userId : Nat) (content : String)
    (messageId : Nat) (authorDisplayName : String) (gem : Except EscapedExn JValue) :
    List BotAction :=
  .logAction userName userId "De-idiotize_Ephemeral" content messageId ::
  (if content = "" then
    [.sendMessage "❌ That message doesn't contain any text." true]
  else
    .deferResponse true :: .callGemini content ::
    (match gem with
     | .ok v => [.followupEmbed v authorDisplayName true]
     | .error e => [.followupError e true]))

/-- `true` when the first list is an initial segment of the second. -/
def leadsWith : List Char → List Char → Bool
  | [], _ => true
  | _ :: _, [] => false
  | a :: as, b :: bs => a == b && leadsWith as bs

/-- `true` when `needle` occurs as a contiguous sublist of `hay`. -/
def occursIn (needle : List Char) : List Char → Bool
  | [] => needle.isEmpty
  | h :: t => leadsWith needle (h :: t) || occursIn needle t

/-- Substring occurrence on strings. -/
def strOccurs (needle hay : String) : Bool :=
  occursIn needle.data hay.data

/-- The text parts of a request body of the shape the client builds:
all `"text"` string fields of the `"parts"` of the `"contents"`. -/
def requestTextParts (body : JValue) : List String :=
  match body with
  | .obj fs =>
    match fs.lookup "contents" with
    | some (.arr cs) =>
      (cs.map (fun c =>
        match c with
        | .obj cfs =>
          match cfs.lookup "parts" with
          | some (.arr ps) =>
            (ps.map (fun p =>
              match p with
              | .obj pfs =>
                match pfs.lookup "text" with
                | some (.str s) => [s]
                | _ => []
              | _ => [])).flatten
          | _ => []
        | _ => [])).flatten
    | _ => []
  | _ => []

/-- Condition under which `call_gemini_api` returns a value rather than
letting an exception escape: the key is missing (early return), or the
status is not 200 (error-string return), or the 200 body is well-formed
JSON whose extraction does not raise a `TypeError`. -/
def noEscape (key : Option String) (net : NetOutcome) : Bool :=
  keyMissing key ||
  (match net with
   | .fault => false
   | .response status _ bodyJson =>
     status != 200 ||
     (match bodyJson with
      | none => false
      | some j =>
        match extractText j with
        | .error .typeError => false
        | _ => true))

/-- A well-formed success body
`{"candidates": [{"content": {"parts": [{"text": "hello"}]}}]}`. -/
def sampleBody : JValue :=
  .obj [("candidates", .arr [
    .obj [("content", .obj [("parts", .arr [
      .obj [("text", .str "hello")]])])]])]

theorem leadsWith_append (xs ys : List Char) : leadsWith xs (xs ++ ys) = true := by
  induction xs with
  | nil => rfl
  | cons a as ih => simp [leadsWith, ih]

theorem occursIn_append (needle rest xs : List Char)
    (h : occursIn needle rest = true) : occursIn needle (xs ++ rest) = true := by
  induction xs with
  | nil => simpa using h
  | cons x t ih =>
    simp only [List.cons_append, occursIn, Bool.or_eq_true]
    exact Or.inr ih

theorem occursIn_here (needle ys : List Char) : occursIn needle (needle ++ ys) = true := by
  cases needle with
  | nil => cases ys <;> simp [occursIn, List.isEmpty, leadsWith]
  | cons n ns =>
    simp only [List.cons_append, occursIn, Bool.or_eq_true]
    exact Or.inl (leadsWith_append (n :: ns) ys)

theorem strOccurs_of_parts (needle hay : String) (pre post : List Char)
    (h : hay.data = pre ++ (needle.data ++ post)) : strOccurs needle hay = true := by
  unfold strOccurs
  rw [h]
  exact occursIn_append _ _ _ (occursIn_here _ _)

/-- C1: fails as stated. The code accepts only status 200, not every 2xx
status: at status 201 with a well-formed body whose extraction path holds
"hello", `call_gemini_api` returns the "[API Error 201]" failure string
instead of "hello". -/
theorem C1_counterexample :
    (200 ≤ 201 ∧ 201 < 300) ∧
    extractText sampleBody = .ok (.str "hello") ∧
    (call_gemini_api (some "k") "hi" (.response 201 "raw" (some sampleBody))).2 =
      .ok (.str "[API Error 201]: raw") ∧
    ("[API Error 201]: raw" : String) ≠ "hello" :=
  ⟨⟨by norm_num, by norm_num⟩, rfl, rfl, by decide⟩

/-- C1 (amended): on an HTTP response with status exactly 200 whose body is
well-formed JSON holding the string `t` at
`candidates[0].content.parts[0].text`, `call_gemini_api` returns exactly
`t`, unmodified, with no post-processing. (Any status other than 200,
including other 2xx statuses, takes the error branch instead.) -/
theorem C1_extract_exact (k input bodyText : String) (j : JValue) (t : String)
    (hk : k ≠ "") (hj : extractText j = .ok (.str t)) :
    (call_gemini_api (some k) input (.response 200 bodyText (some j))).2 =
      .ok (.str t) := by
  simp [call_gemini_api, hk, hj]

theorem C1_extract_exact_witness :
    (("key" : String) ≠ "" ∧ extractText sampleBody = .ok (.str "hello")) ∧
    (call_gemini_api (some "key") "input" (.response 200 "body" (some sampleBody))).2 =
      .ok (.str "hello") :=
  ⟨⟨by decide, rfl⟩,
   C1_extract_exact "key" "input" "body" sampleBody "hello" (by decide) rfl⟩

/-- C2: fails as stated. Only `KeyError` and `IndexError` are caught: a 200
response whose JSON body is malformed at a step of the path in a way that
raises `TypeError` — here `{"candidates": 42}`, where `42[0]` is not
subscriptable — propagates the exception instead of returning the
unexpected-format failure. -/
theorem C2_counterexample :
    (call_gemini_api (some "k") "hi"
      (.response 200 "raw body" (some (.obj [("candidates", .num 42)])))).2 =
      .error .typeError :=
  rfl

/-- C2 (amended): on an HTTP 200 response whose well-formed JSON body fails
the path extraction with a missing key or an out-of-range index (e.g. body
`{}`), `call_gemini_api` returns the "[Error: Unexpected response format
from Google AI]" failure string; shape mismatches that raise `TypeError`
are not caught and propagate. -/
theorem C2_format_failure (k input bodyText : String) (j : JValue)
    (hk : k ≠ "")
    (hj : extractText j = .error .keyError ∨ extractText j = .error .indexError) :
    (call_gemini_api (some k) input (.response 200 bodyText (some j))).2 =
      .ok (.str "[Error: Unexpected response format from Google AI]") := by
  rcases hj with hj | hj <;> simp [call_gemini_api, hk, hj]

theorem C2_format_failure_witness :
    (("key" : String) ≠ "" ∧ extractText (.obj []) = .error .keyError) ∧
    (call_gemini_api (some "key") "hi" (.response 200 "empty object" (some (.obj [])))).2 =
      .ok (.str "[Error: Unexpected response format from Google AI]") :=
  ⟨⟨by decide, rfl⟩,
   C2_format_failure "key" "hi" "empty object" (.obj []) (by decide) (Or.inl rfl)⟩

/-- C3: fails as stated. A transport-level fault (DNS failure, connection
refused, timeout) raised by the HTTP client is not caught inside
`call_gemini_api`: the exception escapes the function (the calling
handlers catch it with their own `try/except`). -/
theorem C3_counterexample :
    (call_gemini_api (some "k") "hi" .fault).2 = .error .transport :=
  rfl

/-- C3 (amended): `call_gemini_api` returns a value (rather than letting an
exception escape) exactly on the `noEscape` conditions: the key is missing,
or the status is not 200, or the 200 body is well-formed JSON whose
extraction does not raise `TypeError`. Transport faults, undecodable 200
bodies and `TypeError`-raising shapes propagate as exceptions. -/
theorem C3_no_raise_iff (key : Option String) (input : String) (net : NetOutcome) :
    (∃ v, (call_gemini_api key input net).2 = .ok v) ↔ noEscape key net = true := by
  cases key with
  | none => simp [call_gemini_api, noEscape, keyMissing]
  | some k =>
    by_cases hk : k = ""
    · simp [call_gemini_api, noEscape, keyMissing, hk]
    · cases net with
      | fault => simp [call_gemini_api, noEscape, keyMissing, hk]
      | response status bodyText bodyJson =>
        by_cases hs : status = 200
        · subst hs
          cases bodyJson with
          | none => simp [call_gemini_api, noEscape, keyMissing, hk]
          | some j =>
            cases hext : extractText j with
            | ok v => simp [call_gemini_api, noEscape, keyMissing, hk, hext]
            | error e =>
              cases e <;> simp [call_gemini_api, noEscape, keyMissing, hk, hext]
        · simp [call_gemini_api, noEscape, keyMissing, hk, hs]

/-- C4: with no API key configured — the variable unset or empty, the two
falsy cases of `if not GOOGLE_API_KEY` — `call_gemini_api` immediately
returns the failure string "[Error: API Key is missing. Check your .env
file]" (which begins with "[Error: API Key is missing") and issues zero
HTTP requests, whatever the network would have done. -/
theorem C4_missing_key (key : Option String) (input : String) (net : NetOutcome)
    (h : keyMissing key = true) :
    call_gemini_api key input net =
      ([], .ok (.str "[Error: API Key is missing. Check your .env file]")) ∧
    strOccurs "[Error: API Key is missing"
      "[Error: API Key is missing. Check your .env file]" = true := by
  refine ⟨?_, by decide⟩
  cases key with
  | none => rfl
  | some s =>
    simp only [keyMissing, decide_eq_true_eq] at h
    subst h
    rfl

theorem C4_missing_key_witness :
    keyMissing none = true ∧
    call_gemini_api none "hello" .fault =
      ([], .ok (.str "[Error: API Key is missing. Check your .env file]")) :=
  ⟨rfl, (C4_missing_key none "hello" .fault rfl).1⟩

/-- C5: on any response with a non-2xx status the function returns a
failure string containing both the decimal status code and the raw body
text (the code in fact takes this branch for every status other than
200). -/
theorem C5_non2xx_failure (k input bodyText : String) (status : Nat)
    (bodyJson : Option JValue) (hk : k ≠ "") (hs : status < 200 ∨ 300 ≤ status) :
    ∃ msg, (call_gemini_api (some k) input (.response status bodyText bodyJson)).2 =
        .ok (.str msg) ∧
      strOccurs (toString status) msg = true ∧
      strOccurs bodyText msg = true := by
  have hne : status ≠ 200 := by omega
  refine ⟨"[API Error " ++ toString status ++ "]: " ++ bodyText, ?_, ?_, ?_⟩
  · simp [call_gemini_api, hk, hne]
  · exact strOccurs_of_parts _ _ ("[API Error ").data ("]: " ++ bodyText).data
      (by simp [String.data_append, List.append_assoc])
  · exact strOccurs_of_parts _ _ ("[API Error " ++ toString status ++ "]: ").data []
      (by simp [String.data_append, List.append_assoc])

theorem C5_non2xx_failure_witness :
    (("key" : String) ≠ "" ∧ (500 < 200 ∨ 300 ≤ 500)) ∧
    ∃ msg, (call_gemini_api (some "key") "hi" (.response 500 "internal error" none)).2 =
        .ok (.str msg) ∧
      strOccurs (toString 500) msg = true ∧
      strOccurs "internal error" msg = true :=
  ⟨⟨by decide, Or.inr (by norm_num)⟩,
   C5_non2xx_failure "key" "hi" "internal error" 500 none (by decide)
     (Or.inr (by norm_num))⟩

/-- C6: whenever a request is issued (key configured, so truthy), exactly
one request goes out and its body holds exactly one text part: the fixed
`system_prompt` constant, then the separator "\n\nInput Text:\n", then the
input string unchanged, byte for byte. -/
theorem C6_single_text_part (k input : String) (net : NetOutcome) (hk : k ≠ "") :
    (call_gemini_api (some k) input net).1 = [buildRequest k input] ∧
    requestTextParts (buildRequest k input).body =
      [system_prompt ++ "\n\nInput Text:\n" ++ input] := by
  refine ⟨?_, rfl⟩
  cases net with
  | fault => simp [call_gemini_api, hk]
  | response status bodyText bodyJson =>
    by_cases hs : status = 200
    · subst hs
      cases bodyJson with
      | none => simp [call_gemini_api, hk]
      | some j =>
        cases hext : extractText j with
        | ok v => simp [call_gemini_api, hk, hext]
        | error e => cases e <;> simp [call_gemini_api, hk, hext]
    · simp [call_gemini_api, hk, hs]

theorem C6_single_text_part_witness :
    (("key" : String) ≠ "") ∧
    (call_gemini_api (some "key") "hi" .fault).1 = [buildRequest "key" "hi"] ∧
    requestTextParts (buildRequest "key" "hi").body =
      [system_prompt ++ "\n\nInput Text:\n" ++ "hi"] :=
  ⟨by decide, C6_single_text_part "key" "hi" .fault (by decide)⟩

set_option maxRecDepth 20000 in
/-- C7: fails as stated. The body is independent of the key, but "never
contains it" is false for a key value that coincides with a substring of
the key-independent content: with key "Input Text:" the request body's
single text part contains the key. -/
theorem C7_counterexample :
    requestTextParts (buildRequest "Input Text:" "hello").body =
      [system_prompt ++ "\n\nInput Text:\n" ++ "hello"] ∧
    strOccurs "Input Text:" (system_prompt ++ "\n\nInput Text:\n" ++ "hello") = true :=
  ⟨rfl, by decide⟩

/-- C7 (amended): the request URL and JSON body are independent of the API
key — identical for any two key values, the URL being the fixed
`GEMINI_URL` — and the key is carried in the designated `x-goog-api-key`
header only; so the body can contain the key only when the key happens to
equal a substring of that key-independent content. -/
theorem C7_key_isolation (k1 k2 input : String) :
    (buildRequest k1 input).url = GEMINI_URL ∧
    (buildRequest k1 input).url = (buildRequest k2 input).url ∧
    (buildRequest k1 input).body = (buildRequest k2 input).body ∧
    (buildRequest k1 input).headers =
      [("Content-Type", "application/json"), ("x-goog-api-key", k1)] :=
  ⟨rfl, rfl, rfl, rfl⟩

/-- C8: every invocation issues at most one HTTP POST — exactly one when an
API key is configured (truthy) and zero when it is not — whatever the
network outcome; the function has no retry, repetition or cache path. -/
theorem C8_one_request (key : Option String) (input : String) (net : NetOutcome) :
    (call_gemini_api key input net).1.length = if keyMissing key then 0 else 1 := by
  cases key with
  | none => rfl
  | some k =>
    by_cases hk : k = ""
    · subst hk; rfl
    · cases net with
      | fault => simp [call_gemini_api, keyMissing, hk]
      | response status bodyText bodyJson =>
        by_cases hs : status = 200
        · subst hs
          cases bodyJson with
          | none => simp [call_gemini_api, keyMissing, hk]
          | some j =>
            cases hext : extractText j with
            | ok v => simp [call_gemini_api, keyMissing, hk, hext]
            | error e => cases e <;> simp [call_gemini_api, keyMissing, hk, hext]
        · simp [call_gemini_api, keyMissing, hk, hs]

/-- C9: `is_bot_owner` is a single numeric equality — true exactly when the
invoking user's ID equals the configured owner ID — and the configured
owner ID is 0 when the `BOT_OWNER_ID` environment variable is absent or
not a decimal-digit string (so the check then compares against 0). -/
theorem C9_owner_check :
    (∀ userId ownerId : Nat, is_bot_owner userId ownerId = true ↔ userId = ownerId) ∧
    parseOwnerId none = 0 ∧
    (∀ s : String, pyIsdigit s = false → parseOwnerId (some s) = 0) := by
  refine ⟨?_, rfl, ?_⟩
  · intro u o
    simp [is_bot_owner]
  · intro s h
    simp [parseOwnerId, h]

theorem C9_owner_check_witness :
    pyIsdigit "12a" = false ∧ parseOwnerId (some "12a") = 0 :=
  ⟨by decide, C9_owner_check.2.2 "12a" (by decide)⟩

/-- C10: on a target message with empty content, each context-menu handler
performs exactly the log effect and the ephemeral "❌ That message doesn't
contain any text." reply, and stops — in particular no `callGemini` effect
occurs, whatever the rewrite function would have done, so no prompt is
built and no network call is made. -/
theorem C10_empty_message (userName authorName : String) (userId messageId : Nat)
    (gem : Except EscapedExn JValue) :
    deidiotize_context userName userId "" messageId gem =
      [.logAction userName userId "De-idiotize" "" messageId,
       .sendMessage "❌ That message doesn't contain any text." true] ∧
    deidiotize_context_ephemeral userName userId "" messageId authorName gem =
      [.logAction userName userId "De-idiotize_Ephemeral" "" messageId,
       .sendMessage "❌ That message doesn't contain any text." true] ∧
    ((deidiotize_context userName userId "" messageId gem).all fun a =>
      match a with | .callGemini _ => false | _ => true) = true ∧
    ((deidiotize_context_ephemeral userName userId "" messageId authorName gem).all fun a =>
      match a with | .callGemini _ => false | _ => true) = true :=
  ⟨rfl, rfl, rfl, rfl⟩
